import Mathlib

/-!
Verification development for the dynamic-error-handler middleware
(`src/errorHandler.ts`): a shallow embedding of the error-classification
and response-shaping pipeline, followed by theorems settling the frozen
claims about it.

Modelling conventions:
* TypeScript optional fields (`statusCode?: number`) become `Option`.
* JavaScript runtime exceptions (calling `Object.values` on `undefined`,
  a failing `fs.appendFileSync`) are modelled with `Except JsError`.
* JavaScript truthiness of `x || d` on numbers/strings is modelled by
  `jsOrInt` / `jsOrStr` (`0` and `""` are falsy).
* The external log sink may fail; that possibility is threaded in as the
  boolean `sinkFails`, and the current timestamp as the string `now`.
-/

/-- Runtime exceptions the middleware can raise: a `TypeError` from
`Object.values(undefined)` in the ValidationError classifier (or from
calling a missing handler), and a filesystem error from the synchronous
log write in `logError`. -/
inductive JsError where
  | typeError
  | logWriteFailed
deriving DecidableEq

/-- One entry of a raw error's `errors` mapping: the classifier reads only
its `message` field (`el.message` in `defaultHandlers.ValidationError`). -/
structure FieldFailure where
  message : String
deriving DecidableEq

/-- The `ErrorType` interface of `src/errorHandler.ts` (lines 6-14): an
`Error` (name, message, stack) extended with the optional fields the
classifiers read defensively.  `keyValue` (read by the duplicate-field
classifier through `JSON.stringify`) is modelled as an association list of
string pairs. -/
structure ErrorType where
  name : String
  message : String
  stack : String
  statusCode : Option Int := none
  status : Option String := none
  isOperational : Option Bool := none
  code : Option Int := none
  errors : Option (List FieldFailure) := none
  path : Option String := none
  value : Option String := none
  keyValue : Option (List (String × String)) := none
deriving DecidableEq

/-- The operational-error value produced by classifiers. -/
structure AppError where
  message : String
  statusCode : Int
  status : String
  isOperational : Bool
deriving DecidableEq

/-- Modelled from the spec: `AppError.ts` is imported by
`src/errorHandler.ts` but is not under `src/`.  Per the spec's
OperationalError contract, constructing with `(message, statusCode = 400)`
yields `statusClass` (the `status` field) set to `"fail"` when
`statusCode` is in `[400,500)` and `"error"` otherwise, and
`isOperational` is always `true`; `message` and `statusCode` are accepted
unvalidated. -/
def mkAppError (message : String) (statusCode : Int := 400) : AppError :=
  { message := message
    statusCode := statusCode
    status := if 400 ≤ statusCode ∧ statusCode < 500 then "fail" else "error"
    isOperational := true }

/-- An `AppError` viewed back as an `ErrorType`, as happens when a
classifier's result is reassigned to `err` in the middleware.  Modelled
from the spec and the README: `AppError` extends the built-in `Error`
class and does not override `name`, so instances carry the inherited name
`"Error"`.  The captured stack trace's content is environment-dependent
and no claim depends on it; it is modelled as `""`. -/
def AppError.toErrorType (a : AppError) : ErrorType :=
  { name := "Error"
    message := a.message
    stack := ""
    statusCode := some a.statusCode
    status := some a.status
    isOperational := some a.isOperational }

/-- JavaScript string interpolation of a possibly-undefined value:
`${undefined}` renders as `"undefined"`. -/
def tmpl : Option String → String
  | some s => s
  | none => "undefined"

/-- `JSON.stringify(err.keyValue)` as used by the duplicate-field
classifier: `undefined` serializes to `undefined`, which the template
literal renders as `"undefined"`; an object of string values serializes to
`{"k":"v",...}`. -/
def jsonStringifyKV : Option (List (String × String)) → String
  | none => "undefined"
  | some l =>
      "\x7b" ++ String.intercalate ","
        (l.map (fun p => "\"" ++ p.1 ++ "\":\"" ++ p.2 ++ "\"")) ++ "\x7d"

/-- A classifier: a function from a raw error to an `AppError`, which may
raise a runtime exception (the code has no defensive try/catch). -/
abbrev HandlerFunction := ErrorType → Except JsError AppError

/-- `defaultHandlers.CastError`: message `Invalid {path}: {value}.`,
status 400. -/
def castHandler : HandlerFunction := fun err =>
  Except.ok (mkAppError ("Invalid " ++ tmpl err.path ++ ": " ++ tmpl err.value ++ ".") 400)

/-- `defaultHandlers.ValidationError`: `Object.values(err.errors)` throws a
`TypeError` when `err.errors` is `undefined`; otherwise the entries'
`message` fields are joined with `". "` after `"Invalid input data. "`,
status 400. -/
def validationHandler : HandlerFunction := fun err =>
  match err.errors with
  | none => Except.error JsError.typeError
  | some es =>
      Except.ok (mkAppError
        ("Invalid input data. " ++ String.intercalate ". " (es.map FieldFailure.message)) 400)

/-- `defaultHandlers.DuplicateField`: serializes `err.keyValue` into
`Duplicate field value: {serialized}`, status 400. -/
def duplicateFieldHandler : HandlerFunction := fun err =>
  Except.ok (mkAppError ("Duplicate field value: " ++ jsonStringifyKV err.keyValue) 400)

/-- `defaultHandlers.JsonWebTokenError`: fixed message, status 401. -/
def jsonWebTokenHandler : HandlerFunction := fun _ =>
  Except.ok (mkAppError "Invalid token. Please log in again." 401)

/-- `defaultHandlers.TokenExpiredError`: fixed message, status 401. -/
def tokenExpiredHandler : HandlerFunction := fun _ =>
  Except.ok (mkAppError "Token expired. Please log in again." 401)

/-- The `defaultHandlers` object of `src/errorHandler.ts` (lines 27-46) as
an exact-match lookup on the discriminator key. -/
def defaultHandlers : String → Option HandlerFunction := fun k =>
  if k = "CastError" then some castHandler
  else if k = "ValidationError" then some validationHandler
  else if k = "DuplicateField" then some duplicateFieldHandler
  else if k = "JsonWebTokenError" then some jsonWebTokenHandler
  else if k = "TokenExpiredError" then some tokenExpiredHandler
  else none

/-- The spread merge `{ ...defaultHandlers, ...customHandlers }` (line 90):
a caller-supplied entry wins on key collision, every other key falls back
to the built-ins. -/
def mergeHandlers (custom : String → Option HandlerFunction) (k : String) :
    Option HandlerFunction :=
  match custom k with
  | some f => some f
  | none => defaultHandlers k

/-- JavaScript `x || d` on an optional number: `undefined` and `0` are
falsy, every other number passes through. -/
def jsOrInt : Option Int → Int → Int
  | some v, d => if v = 0 then d else v
  | none, d => d

/-- JavaScript `x || d` on an optional string: `undefined` and `""` are
falsy, every other string passes through. -/
def jsOrStr : Option String → String → String
  | some s, d => if s = "" then d else s
  | none, d => d

/-- Lines 97-98 of the middleware:
`err.statusCode = err.statusCode || 500; err.status = err.status || "error";`
performed in place on the incoming error before classification. -/
def normalizeErr (err : ErrorType) : ErrorType :=
  { err with
    statusCode := some (jsOrInt err.statusCode 500)
    status := some (jsOrStr err.status "error") }

/-- Lines 100-103 of the middleware: two sequential `if` statements (not an
`if`/`else`).  First, when `err.code === 11000`, `err` is replaced by
`handlers.DuplicateField(err)`; then, whenever `handlers[err.name]` exists
for the (possibly already replaced) `err`, it is applied as well.  Calling
a missing `DuplicateField` entry would be a `TypeError`; the merged map
always has one, so that branch is unreachable. -/
def classify (handlers : String → Option HandlerFunction) (err : ErrorType) :
    Except JsError ErrorType :=
  let step1 : Except JsError ErrorType :=
    if err.code = some 11000 then
      match handlers "DuplicateField" with
      | some f => Except.map AppError.toErrorType (f err)
      | none => Except.error JsError.typeError
    else Except.ok err
  match step1 with
  | Except.error e => Except.error e
  | Except.ok e1 =>
      match handlers e1.name with
      | some f => Except.map AppError.toErrorType (f e1)
      | none => Except.ok e1

/-- The response payload object passed to `res.json`: `status` may be an
absent/undefined property (`sendProdError` passes `err.status` through
unchecked), `stack` is present only when the dev formatter includes it. -/
structure Payload where
  status : Option String
  message : String
  stack : Option String := none
deriving DecidableEq

/-- The emitted response: the argument of `res.status` (passed through
unchecked by `sendProdError`'s `err.statusCode!`) and the JSON payload. -/
structure Response where
  statusCode : Option Int
  payload : Payload
deriving DecidableEq

/-- `sendDevError` (lines 62-68): status `err.statusCode || 500`, payload
`{status: err.status || "error", message, stack}`. -/
def sendDevError (err : ErrorType) : Response :=
  { statusCode := some (jsOrInt err.statusCode 500)
    payload :=
      { status := some (jsOrStr err.status "error")
        message := err.message
        stack := some err.stack } }

/-- `sendProdError` (lines 70-82): when `err.isOperational` is truthy,
status `err.statusCode!` and payload `{status, message}`; otherwise status
500 and the generic payload. -/
def sendProdError (err : ErrorType) : Response :=
  if err.isOperational = some true then
    { statusCode := err.statusCode
      payload := { status := err.status, message := err.message } }
  else
    { statusCode := some 500
      payload := { status := some "error", message := "Something went very wrong!" } }

/-- Lines 105-109: dev formatting when the deployment mode is verbose
(`NODE_ENV === "development"`), prod formatting otherwise. -/
def format (verbose : Bool) (err : ErrorType) : Response :=
  if verbose then sendDevError err else sendProdError err

/-- The request context read by `logError`. -/
structure Req where
  originalUrl : String
  method : String
  ip : String
deriving DecidableEq

/-- The text block `logError` builds (lines 49-56). -/
def logText (now : String) (err : ErrorType) (req : Req) : String :=
  "\n[" ++ now ++ "]\nURL: " ++ req.originalUrl ++ "\nMethod: " ++ req.method ++
    "\nIP: " ++ req.ip ++ "\nMessage: " ++ err.message ++ "\nStack: " ++ err.stack ++ "\n"

/-- `logError` (lines 48-60): builds the log text and appends it
synchronously to the external sink with `fs.appendFileSync`; there is no
try/catch, so a failing sink raises.  The sink's availability is the
`sinkFails` input; on success the appended text is returned as the
observable effect. -/
def logError (now : String) (sinkFails : Bool) (err : ErrorType) (req : Req) :
    Except JsError String :=
  if sinkFails then Except.error JsError.logWriteFailed
  else Except.ok (logText now err req)

/-- The middleware returned by the exported factory (lines 92-110),
instrumented to also return the caller's error object as it stands when
the middleware finishes (normally or by raising).  `logError` runs first,
so a sink failure raises before any mutation; otherwise lines 97-98 write
`statusCode`/`status` in place on the caller's object, and the
reassignments at lines 100-103 rebind only the local variable `err`, never
touching the caller's object again. -/
def handleRun (custom : String → Option HandlerFunction) (enableLogging sinkFails : Bool)
    (now : String) (verbose : Bool) (err : ErrorType) (req : Req) :
    Except JsError Response × ErrorType :=
  match (if enableLogging then Except.map (fun _ => ()) (logError now sinkFails err req)
         else Except.ok ()) with
  | Except.error e => (Except.error e, err)
  | Except.ok _ =>
      let e1 := normalizeErr err
      (Except.map (format verbose) (classify (mergeHandlers custom) e1), e1)

/-- The middleware's observable result: the single response written back
(or the exception that escaped). -/
def handle (custom : String → Option HandlerFunction) (enableLogging sinkFails : Bool)
    (now : String) (verbose : Bool) (err : ErrorType) (req : Req) :
    Except JsError Response :=
  (handleRun custom enableLogging sinkFails now verbose err req).1

/-! ## Helper lemmas -/

/-- Built-in lookup at the key `"DuplicateField"`. -/
theorem defaultHandlers_duplicateField :
    defaultHandlers "DuplicateField" = some duplicateFieldHandler := rfl

/-- Built-in lookup at the key `"Error"` (the name every `AppError`
carries) misses. -/
theorem defaultHandlers_error_key : defaultHandlers "Error" = none := rfl

/-- A key the caller did not override falls back to the built-ins. -/
theorem mergeHandlers_eq_default (custom : String → Option HandlerFunction) (k : String)
    (h : custom k = none) : mergeHandlers custom k = defaultHandlers k := by
  unfold mergeHandlers
  rw [h]

/-- A key the caller overrode resolves to the caller's classifier. -/
theorem mergeHandlers_eq_custom (custom : String → Option HandlerFunction) (k : String)
    (f : HandlerFunction) (h : custom k = some f) : mergeHandlers custom k = some f := by
  unfold mergeHandlers
  rw [h]

/-- Normalization touches only `statusCode` and `status`. -/
theorem normalizeErr_fields (err : ErrorType) :
    (normalizeErr err).name = err.name ∧ (normalizeErr err).code = err.code ∧
    (normalizeErr err).errors = err.errors := by
  simp [normalizeErr]

/-! ## Claims -/

/-- C1, counterexample: the dispatch at lines 100-103 is two sequential
`if` statements, not an `if`/`else`.  A raw error with `code == 11000` is
first transformed by the duplicate-field classifier, but the resulting
`AppError` (whose inherited name is `"Error"`) is then fed to the
name-based lookup as well; registering a custom classifier under the
discriminator `"Error"` makes a second classifier fire, and the final
error has status 418 and message `"overridden"`, not the claimed status
400 with the serialized `keyValue` payload. -/
theorem c1_counterexample :
    (classify (mergeHandlers (fun k =>
        if k = "Error" then some (fun _ => Except.ok (mkAppError "overridden" 418)) else none))
      { name := "MongoServerError", message := "dup", stack := "s", code := some 11000,
        keyValue := some [("email", "x")] }
      = Except.ok
          { name := "Error", message := "overridden", stack := "",
            statusCode := some 418, status := some "fail", isOperational := some true }) ∧
    (418 : Int) ≠ 400 :=
  ⟨rfl, by decide⟩

/-- C1, amended: for every raw error with `code == 11000` the
duplicate-field classifier is applied first, regardless of `name`; the
name-based lookup is then applied unconditionally to the transformed
error, whose name is `"Error"`, so as long as no classifier is registered
under `"Error"` (and the duplicate-field classifier itself is not
overridden) exactly one classifier transforms the error and the result is
an operational error with status 400 whose message contains the
serialized `keyValue` payload. -/
theorem c1_amended (custom : String → Option HandlerFunction) (err : ErrorType)
    (hcode : err.code = some 11000)
    (hdup : custom "DuplicateField" = none) (herr : custom "Error" = none) :
    classify (mergeHandlers custom) err
      = Except.ok (AppError.toErrorType
          (mkAppError ("Duplicate field value: " ++ jsonStringifyKV err.keyValue) 400)) := by
  simp [classify, hcode, mergeHandlers, hdup, herr, defaultHandlers,
    duplicateFieldHandler, AppError.toErrorType, Except.map, mkAppError]

/-- C1, witness for the amended theorem at a concrete input. -/
theorem c1_amended_witness :
    classify (mergeHandlers (fun _ => none))
      { name := "MongoServerError", message := "dup", stack := "s", code := some 11000,
        keyValue := some [("email", "x")] }
      = Except.ok (AppError.toErrorType
          (mkAppError ("Duplicate field value: " ++
            jsonStringifyKV (some [("email", "x")])) 400)) :=
  c1_amended (fun _ => none)
    { name := "MongoServerError", message := "dup", stack := "s", code := some 11000,
      keyValue := some [("email", "x")] } rfl rfl rfl

/-- C2, code bug: the pipeline's handler can throw.  On a raw error named
`"ValidationError"` whose `errors` field is absent, the built-in
classifier evaluates `Object.values(undefined)`, which raises a
`TypeError` that escapes the handler, and no response is written at all —
contradicting the claim that every raw error yields exactly one
well-formed JSON response. -/
theorem c2_validation_throws :
    handle (fun _ => none) false false "2024-01-01T00:00:00.000Z" false
      { name := "ValidationError", message := "m", stack := "s" } ⟨"/u", "GET", "::1"⟩
      = Except.error JsError.typeError := rfl

/-- C3, code bug: `logError` appends to the sink with no try/catch, so
when logging is enabled and the log write fails the exception escapes
before any response is written; with logging disabled the same error
yields the generic 500 response.  The response is therefore not isolated
from log-write failures, contradicting the claim. -/
theorem c3_log_failure_blocks_response :
    (handle (fun _ => none) true true "2024-01-01T00:00:00.000Z" false
       { name := "Boom", message := "m", stack := "s" } ⟨"/u", "GET", "::1"⟩
       = Except.error JsError.logWriteFailed) ∧
    (handle (fun _ => none) false false "2024-01-01T00:00:00.000Z" false
       { name := "Boom", message := "m", stack := "s" } ⟨"/u", "GET", "::1"⟩
       = Except.ok
           { statusCode := some 500,
             payload := { status := some "error", message := "Something went very wrong!" } }) :=
  ⟨rfl, rfl⟩

/-- C4: for every error, verbose formatting produces a payload whose
diagnostic-trace field is exactly the formatted error's own stack, and
non-verbose formatting (either branch of `sendProdError`) produces a
payload in which the trace field is never present. -/
theorem c4_stack_iff_verbose (err : ErrorType) :
    (format true err).payload.stack = some err.stack ∧
    (format false err).payload.stack = none := by
  constructor
  · simp [format, sendDevError]
  · by_cases h : err.isOperational = some true <;> simp [format, sendProdError, h]

/-- C5: for every error whose `isOperational` is not `true` (absent or
`false`), non-verbose formatting yields status 500 and the payload
`status "error"`, `message "Something went very wrong!"`, regardless of
the error's original message, stack or status code. -/
theorem c5_nonoperational_generic (err : ErrorType) (h : err.isOperational ≠ some true) :
    format false err
      = { statusCode := some 500,
          payload := { status := some "error", message := "Something went very wrong!" } } := by
  simp [format, sendProdError, h]

/-- C5, witness: a non-operational error with its own message, stack and
status code still formats to the generic 500 response. -/
theorem c5_witness :
    format false
      { name := "Boom", message := "secret detail", stack := "trace",
        statusCode := some 403, isOperational := some false }
      = { statusCode := some 500,
          payload := { status := some "error", message := "Something went very wrong!" } } :=
  c5_nonoperational_generic
    { name := "Boom", message := "secret detail", stack := "trace",
      statusCode := some 403, isOperational := some false } (by decide)

/-- C6: for every message string and every integer status code,
construction yields statusClass `"fail"` exactly when the status code is
in `[400,500)` and `"error"` otherwise, `isOperational` is always `true`,
message and status code are accepted unvalidated, and the status code
defaults to 400.  Settled against the spec-modelled `mkAppError`
(`AppError.ts` is not under `src/`). -/
theorem c6_app_error_contract (m : String) (c : Int) :
    ((mkAppError m c).status = "fail" ↔ 400 ≤ c ∧ c < 500) ∧
    ((mkAppError m c).status = "error" ↔ ¬(400 ≤ c ∧ c < 500)) ∧
    (mkAppError m c).isOperational = true ∧
    (mkAppError m c).message = m ∧
    (mkAppError m c).statusCode = c ∧
    (mkAppError m).statusCode = 400 := by
  unfold mkAppError
  by_cases h : 400 ≤ c ∧ c < 500 <;> simp [h]

/-- C7, counterexample: on the claim's own example input the classifier
joins the entry messages with `". "` after `"Invalid input data. "` and
appends nothing, so the message is
`"Invalid input data. A required. B invalid"` — without the trailing
period the claim asserts. -/
theorem c7_counterexample :
    (Except.map ErrorType.message (classify defaultHandlers
        { name := "ValidationError", message := "m", stack := "s",
          errors := some [FieldFailure.mk "A required", FieldFailure.mk "B invalid"] })
      = Except.ok "Invalid input data. A required. B invalid") ∧
    "Invalid input data. A required. B invalid" ≠ "Invalid input data. A required. B invalid." :=
  ⟨rfl, by decide⟩

/-- C7, amended: for every raw error named `"ValidationError"` (with
`code` not 11000) carrying a non-empty `errors` mapping, classification
yields an operational error with status 400 whose message is
`"Invalid input data. "` followed by the entries' messages joined with
`". "` — no trailing period is appended, so the example input yields
exactly `"Invalid input data. A required. B invalid"`. -/
theorem c7_amended (err : ErrorType) (msgs : List FieldFailure)
    (hname : err.name = "ValidationError") (hcode : err.code ≠ some 11000)
    (herrs : err.errors = some msgs) (_hne : msgs ≠ []) :
    classify defaultHandlers err
      = Except.ok (AppError.toErrorType
          (mkAppError ("Invalid input data. " ++
            String.intercalate ". " (msgs.map FieldFailure.message)) 400)) := by
  simp [classify, hcode, hname, defaultHandlers, validationHandler, herrs, Except.map]

/-- C7, witness for the amended theorem at the claim's example input. -/
theorem c7_amended_witness :
    classify defaultHandlers
      { name := "ValidationError", message := "m", stack := "s",
        errors := some [FieldFailure.mk "A required", FieldFailure.mk "B invalid"] }
      = Except.ok (AppError.toErrorType
          (mkAppError "Invalid input data. A required. B invalid" 400)) :=
  c7_amended
    { name := "ValidationError", message := "m", stack := "s",
      errors := some [FieldFailure.mk "A required", FieldFailure.mk "B invalid"] }
    [FieldFailure.mk "A required", FieldFailure.mk "B invalid"]
    rfl (by decide) rfl (by decide)

/-- C8, counterexample: the defaulting at lines 97-98 uses JavaScript
truthiness, not absence.  A raw error that carries the status code 0
(present, but falsy) matches no classifier, yet reaches the formatter
with status code 500 — the claim's "unless the raw error itself already
had a status code" fails at this input. -/
theorem c8_counterexample :
    (handle (fun _ => none) false false "2024-01-01T00:00:00.000Z" true
       { name := "Whatever", message := "m", stack := "s", statusCode := some 0 }
       ⟨"/u", "GET", "::1"⟩
       = Except.ok
           { statusCode := some 500,
             payload := { status := some "error", message := "m", stack := some "s" } }) ∧
    (ErrorType.statusCode
       { name := "Whatever", message := "m", stack := "s", statusCode := some 0 }
       = some 0) ∧
    (0 : Int) ≠ 500 :=
  ⟨rfl, rfl, by decide⟩

/-- C8, amended: before classification every raw error is normalized to
carry a status code and a status category, defaulting to 500 / `"error"`
when the field is absent or JavaScript-falsy (a status code of 0, an
empty status string); a raw error whose discriminator matches no
registered classifier passes through classification unchanged and reaches
the formatter with status code 500 unless it already had a nonzero status
code, which is preserved. -/
theorem c8_amended (err : ErrorType)
    (h11 : err.code ≠ some 11000) (hmiss : defaultHandlers err.name = none) :
    classify defaultHandlers (normalizeErr err) = Except.ok (normalizeErr err) ∧
    (normalizeErr err).statusCode ≠ none ∧
    (normalizeErr err).status ≠ none ∧
    (err.statusCode = none → (normalizeErr err).statusCode = some 500) ∧
    (err.status = none → (normalizeErr err).status = some "error") ∧
    (∀ c : Int, c ≠ 0 → err.statusCode = some c → (normalizeErr err).statusCode = some c) ∧
    (err.statusCode = some 0 → (normalizeErr err).statusCode = some 500) := by
  refine ⟨?_, ?_, ?_, ?_, ?_, ?_, ?_⟩
  · simp [classify, normalizeErr, h11, hmiss]
  · simp [normalizeErr]
  · simp [normalizeErr]
  · intro h
    simp [normalizeErr, h, jsOrInt]
  · intro h
    simp [normalizeErr, h, jsOrStr]
  · intro c hc h
    simp [normalizeErr, h, jsOrInt, hc]
  · intro h
    simp [normalizeErr, h, jsOrInt]

/-- C8, witness: a raw error with no status code and an unknown name
passes through classification and carries the defaulted 500. -/
theorem c8_amended_witness :
    classify defaultHandlers (normalizeErr { name := "Whatever", message := "m", stack := "s" })
      = Except.ok (normalizeErr { name := "Whatever", message := "m", stack := "s" }) ∧
    (normalizeErr { name := "Whatever", message := "m", stack := "s" }).statusCode = some 500 := by
  have h := c8_amended { name := "Whatever", message := "m", stack := "s" } (by decide) rfl
  exact ⟨h.1, h.2.2.2.1 rfl⟩

/-- C9: merging puts a caller-supplied classifier over the built-in with
the same key.  With a custom classifier registered under `"CastError"`,
every classify call on an error named `"CastError"` (whose code is not
the duplicate-key 11000, which takes priority) uses the custom classifier
instead of the built-in, and classification of every error with any other
name is unchanged from the default registry. -/
theorem c9_custom_override (f : HandlerFunction) (err : ErrorType) :
    (err.name = "CastError" → err.code ≠ some 11000 →
      classify (mergeHandlers (fun k => if k = "CastError" then some f else none)) err
        = Except.map AppError.toErrorType (f err)) ∧
    (err.name ≠ "CastError" →
      classify (mergeHandlers (fun k => if k = "CastError" then some f else none)) err
        = classify defaultHandlers err) := by
  constructor
  · intro hname hcode
    simp [classify, hcode, mergeHandlers, hname]
  · intro hname
    by_cases hc : err.code = some 11000
    · simp [classify, hc, mergeHandlers, defaultHandlers, duplicateFieldHandler,
        AppError.toErrorType, Except.map]
    · simp [classify, hc, mergeHandlers, hname]

/-- C9, witness: the custom CastError classifier is used on a CastError,
and an error under another discriminator classifies as with the default
registry. -/
theorem c9_witness :
    (classify (mergeHandlers (fun k =>
        if k = "CastError" then some (fun _ => Except.ok (mkAppError "custom cast" 418)) else none))
      { name := "CastError", message := "m", stack := "s" }
      = Except.ok (AppError.toErrorType (mkAppError "custom cast" 418))) ∧
    (classify (mergeHandlers (fun k =>
        if k = "CastError" then some (fun _ => Except.ok (mkAppError "custom cast" 418)) else none))
      { name := "JsonWebTokenError", message := "m", stack := "s" }
      = classify defaultHandlers { name := "JsonWebTokenError", message := "m", stack := "s" }) := by
  constructor
  · exact (c9_custom_override (fun _ => Except.ok (mkAppError "custom cast" 418))
      { name := "CastError", message := "m", stack := "s" }).1 rfl (by decide)
  · exact (c9_custom_override (fun _ => Except.ok (mkAppError "custom cast" 418))
      { name := "JsonWebTokenError", message := "m", stack := "s" }).2 (by decide)

/-- C10: the middleware mutates its `err` argument in place.  Unless the
log write raises first, an incoming error lacking `statusCode` and
`status` has `statusCode = 500` and `status = "error"` written directly
onto the caller's original object by lines 97-98 (no copy is made in the
embedding: `handleRun` returns the caller's object itself), and the later
reassignments of the local variable `err` (lines 100-103) leave those
writes visible to the caller after the handler returns. -/
theorem c10_inplace_normalization (custom : String → Option HandlerFunction)
    (enableLogging sinkFails : Bool) (now : String) (verbose : Bool)
    (err : ErrorType) (req : Req)
    (hlog : ¬(enableLogging = true ∧ sinkFails = true))
    (hsc : err.statusCode = none) (hst : err.status = none) :
    (handleRun custom enableLogging sinkFails now verbose err req).2
      = { err with statusCode := some 500, status := some "error" } := by
  have hrun : (handleRun custom enableLogging sinkFails now verbose err req).2
      = normalizeErr err := by
    cases enableLogging with
    | false => simp [handleRun]
    | true =>
      cases sinkFails with
      | false => simp [handleRun, logError, Except.map]
      | true => exact absurd ⟨rfl, rfl⟩ hlog
  rw [hrun]
  simp [normalizeErr, hsc, hst, jsOrInt, jsOrStr]

/-- C10, witness: with logging enabled and a healthy sink, a raw error
without status fields comes back to the caller with the defaulted fields
written in. -/
theorem c10_witness :
    (handleRun (fun _ => none) true false "2024-01-01T00:00:00.000Z" false
       { name := "Boom", message := "m", stack := "s" } ⟨"/u", "GET", "::1"⟩).2
      = { name := "Boom", message := "m", stack := "s", statusCode := some 500,
          status := some "error" } := by
  have h := c10_inplace_normalization (fun _ => none) true false "2024-01-01T00:00:00.000Z" false
    { name := "Boom", message := "m", stack := "s" } ⟨"/u", "GET", "::1"⟩
    (by simp) rfl rfl
  exact h
